import Mathlib

/-!
Shallow embedding of the grab-pic library (an Unsplash photo-search client).

The repository contains several variants of the same client:
* a validators module (validateQuery, validateAccessKey, validateAndNormalizeOptions)
  together with an enhanced throwing entry point grabPic (GrabPicError taxonomy);
* an envelope-style entry point grabPic returning {success, data?, error?, statusCode, message?};
* a legacy entry point grabPic that throws plain Errors and rethrows caught Errors as-is.

JavaScript runtime values are modelled as follows:
* strings as String, with the empty string also standing for an absent/undefined
  string (the code only ever tests strings by truthiness, where "" and undefined agree);
* numbers as JsNum (a rational, NaN, or an infinity); a count option that is not a
  number at all is CountInput.other;
* thrown values as Exn (TypeError / SyntaxError / other Error / non-Error value);
* the single fetch call as an explicit FetchOutcome parameter: either an HttpResponse
  (status, statusText and an already-classified JSON body) or a thrown exception.
-/

set_option maxRecDepth 8192

deriving instance DecidableEq for Except

/-- Characters removed by the JavaScript String.prototype.trim model. -/
def trimCharList (l : List Char) : List Char :=
  ((l.dropWhile Char.isWhitespace).reverse.dropWhile Char.isWhitespace).reverse

/-- Model of JavaScript String.prototype.trim: strip whitespace from both ends. -/
def jsTrim (s : String) : String := String.mk (trimCharList s.data)

/-- Error categories of the enhanced library (GrabPicErrorType enum in types.ts). -/
inductive GrabPicErrorType where
  | INVALID_ACCESS_KEY
  | MISSING_QUERY
  | MISSING_ACCESS_KEY
  | INVALID_COUNT
  | RATE_LIMIT_EXCEEDED
  | NO_RESULTS_FOUND
  | NETWORK_ERROR
  | API_ERROR
  | UNKNOWN_ERROR
deriving DecidableEq, Repr

/-- The GrabPicError class: message, error type and HTTP-style status code. -/
structure GrabPicError where
  message : String
  type : GrabPicErrorType
  statusCode : Nat
deriving DecidableEq, Repr

/-- A JavaScript number: a (decimal) rational, NaN, or an infinity. -/
inductive JsNum where
  | rat (q : ℚ)
  | nan
  | posInf
  | negInf
deriving DecidableEq, Repr

/-- Number.isInteger: true exactly for finite integral numbers. -/
def JsNum.isInteger : JsNum → Bool
  | .rat q => q.den == 1
  | _ => false

/-- JavaScript comparison n < c against a finite constant (false for NaN). -/
def JsNum.ltc (n : JsNum) (c : ℚ) : Bool :=
  match n with
  | .rat q => decide (q < c)
  | .nan => false
  | .posInf => false
  | .negInf => true

/-- JavaScript comparison n > c against a finite constant (false for NaN). -/
def JsNum.gtc (n : JsNum) (c : ℚ) : Bool :=
  match n with
  | .rat q => decide (q > c)
  | .nan => false
  | .posInf => true
  | .negInf => false

/-- The runtime value supplied for the count option: a number, or anything else. -/
inductive CountInput where
  | num (n : JsNum)
  | other
deriving DecidableEq, Repr

/-- GrabPicOptions: every field optional (none = the caller omitted the field). -/
structure GrabPicOptions where
  count : Option CountInput
  orientation : Option String
  size : Option String
deriving DecidableEq, Repr

/-- The three orientation strings accepted by the validators. -/
def validOrientations : List String := ["landscape", "portrait", "squarish"]

/-- The five size-tier strings accepted by the validators. -/
def validSizes : List String := ["raw", "full", "regular", "small", "thumb"]

/-- validateQuery from validators.ts: throws GrabPicError, modelled as Except. -/
def validateQuery (query : String) : Except GrabPicError Unit :=
  if query = "" then
    .error ⟨"Query parameter is required and must be a non-empty string", .MISSING_QUERY, 400⟩
  else if (jsTrim query).length = 0 then
    .error ⟨"Query parameter cannot be empty or contain only whitespace", .MISSING_QUERY, 400⟩
  else if query.length > 200 then
    .error ⟨"Query parameter is too long (maximum 200 characters)", .MISSING_QUERY, 400⟩
  else
    .ok ()

/-- validateAccessKey from validators.ts. -/
def validateAccessKey (accessKey : String) : Except GrabPicError Unit :=
  if accessKey = "" then
    .error ⟨"Unsplash access key is required and must be a string", .MISSING_ACCESS_KEY, 400⟩
  else if (jsTrim accessKey).length = 0 then
    .error ⟨"Unsplash access key cannot be empty or contain only whitespace", .MISSING_ACCESS_KEY, 400⟩
  else if accessKey.length < 20 then
    .error ⟨"Unsplash access key appears to be invalid (too short)", .INVALID_ACCESS_KEY, 400⟩
  else
    .ok ()

/-- The fully-populated options record returned by validateAndNormalizeOptions. -/
structure NormalizedOptions where
  count : ℚ
  orientation : String
  size : String
deriving DecidableEq, Repr

/-- validateAndNormalizeOptions from validators.ts: defaults count=5 and
size="regular", rejects non-integer or out-of-range counts and unknown
orientation/size strings (all with type INVALID_COUNT, as in the source),
and defaults an absent orientation to "landscape" in the returned record. -/
def validateAndNormalizeOptions (options : GrabPicOptions) : Except GrabPicError NormalizedOptions :=
  match options.count.getD (.num (.rat 5)) with
  | .other => .error ⟨"Count parameter must be an integer", .INVALID_COUNT, 400⟩
  | .num .nan => .error ⟨"Count parameter must be an integer", .INVALID_COUNT, 400⟩
  | .num .posInf => .error ⟨"Count parameter must be an integer", .INVALID_COUNT, 400⟩
  | .num .negInf => .error ⟨"Count parameter must be an integer", .INVALID_COUNT, 400⟩
  | .num (.rat q) =>
    if q.den ≠ 1 then
      .error ⟨"Count parameter must be an integer", .INVALID_COUNT, 400⟩
    else if q < 1 ∨ q > 30 then
      .error ⟨"Count parameter must be between 1 and 30 (Unsplash API limitation)", .INVALID_COUNT, 400⟩
    else if options.orientation.getD "" ≠ "" ∧ options.orientation.getD "" ∉ validOrientations then
      .error ⟨"Invalid orientation \"" ++ options.orientation.getD "" ++
        "\". Must be one of: landscape, portrait, squarish", .INVALID_COUNT, 400⟩
    else if options.size.getD "regular" ∉ validSizes then
      .error ⟨"Invalid size \"" ++ options.size.getD "regular" ++
        "\". Must be one of: raw, full, regular, small, thumb", .INVALID_COUNT, 400⟩
    else
      .ok ⟨q, if options.orientation.getD "" = "" then "landscape" else options.orientation.getD "",
        options.size.getD "regular"⟩

/-- A count input that is not an integer in [1,30]: not a number, NaN, an
infinity, a non-integral rational, or an integer outside the range. -/
def countInvalid : CountInput → Prop
  | .other => True
  | .num (.rat q) => q.den ≠ 1 ∨ q < 1 ∨ 30 < q
  | .num _ => True


/-- One photo's urls object from the API response. The empty string stands for
an absent/undefined field (every check the code performs on a URL is a
truthiness test or a typeof-string test guarded by truthiness, on which "" and
undefined agree). -/
structure PhotoUrls where
  raw : String
  full : String
  regular : String
  small : String
  thumb : String
deriving DecidableEq, Repr

/-- Dynamic property access photo.urls[size]; an unknown key reads as
undefined, modelled by "". -/
def PhotoUrls.get (u : PhotoUrls) (size : String) : String :=
  if size = "raw" then u.raw
  else if size = "full" then u.full
  else if size = "regular" then u.regular
  else if size = "small" then u.small
  else if size = "thumb" then u.thumb
  else ""

/-- One photo record of the API response (descriptions are never read). -/
structure UnsplashPhoto where
  id : String
  urls : PhotoUrls
deriving DecidableEq, Repr

/-- Classification of the JSON body of a response: response.json() throws
(parseFailure), the parsed object has no results array (malformed), or it has
an ordered results array. -/
inductive JsonBody where
  | parseFailure
  | malformed
  | results (rs : List UnsplashPhoto)
deriving DecidableEq, Repr

/-- An HTTP response as the code observes it. -/
structure HttpResponse where
  status : Nat
  statusText : String
  body : JsonBody
deriving DecidableEq, Repr

/-- response.ok of the fetch API: status in the range 200..299. -/
def HttpResponse.okStatus (r : HttpResponse) : Bool :=
  decide (200 ≤ r.status ∧ r.status ≤ 299)

/-- A thrown JavaScript value: a TypeError, a SyntaxError, some other Error
(with its name), or a non-Error value. -/
inductive Exn where
  | typeError (msg : String)
  | syntaxError (msg : String)
  | otherError (name msg : String)
  | nonError
deriving DecidableEq, Repr

/-- instanceof Error for a thrown value. -/
def Exn.isJsError : Exn → Bool
  | .nonError => false
  | _ => true

/-- message property of a thrown Error ("" when no Error is available). -/
def Exn.message : Exn → String
  | .typeError m => m
  | .syntaxError m => m
  | .otherError _ m => m
  | .nonError => ""

/-- Outcome of the single outbound fetch call: a response, or a thrown
exception from the transport layer. -/
inductive FetchOutcome where
  | ok (response : HttpResponse)
  | throws (e : Exn)
deriving DecidableEq, Repr

/-- JavaScript String.prototype.includes: pat occurs contiguously in s. -/
def jsIncludes (s pat : String) : Bool :=
  decide (pat.data <:+: s.data)

/-- GrabPictureResult viewed as a value: the ordered list of extracted URLs.
Accessors below are its methods; the heap-level aliasing behaviour of the
class is modelled separately by GrabPictureResultObj and Store. -/
structure GrabPictureResult where
  urls : List String
deriving DecidableEq, Repr

/-- one(): this.urls[0] or "" (an absent element and an empty URL both give ""). -/
def GrabPictureResult.one (r : GrabPictureResult) : String := r.urls.getD 0 ""

/-- two(): this.urls[1] or "". -/
def GrabPictureResult.two (r : GrabPictureResult) : String := r.urls.getD 1 ""

/-- three(): this.urls[2] or "". -/
def GrabPictureResult.three (r : GrabPictureResult) : String := r.urls.getD 2 ""

/-- four(): this.urls[3] or "". -/
def GrabPictureResult.four (r : GrabPictureResult) : String := r.urls.getD 3 ""

/-- five(): this.urls[4] or "". -/
def GrabPictureResult.five (r : GrabPictureResult) : String := r.urls.getD 4 ""

/-- all(): at the value level the copy has the same contents. -/
def GrabPictureResult.all (r : GrabPictureResult) : List String := r.urls

/-- random(): Math.floor(Math.random() * length) indexes the list; the random
draw rnd ∈ [0,1) is passed explicitly. An out-of-range index reads undefined,
modelled by "". -/
def GrabPictureResult.random (r : GrabPictureResult) (rnd : ℚ) : String :=
  if r.urls.length = 0 then ""
  else r.urls.getD (Int.toNat ⌊rnd * (r.urls.length : ℚ)⌋) ""

/-- A value thrown inside the enhanced grabPic: a GrabPicError of its own, or
any other exception (for example one raised by fetch or response.json()). -/
inductive Thrown where
  | gpe (e : GrabPicError)
  | exn (e : Exn)
deriving DecidableEq, Repr

namespace Enhanced

/-- try-block of the enhanced grabPic: validation, the fetch call, status
interpretation, body-shape checks, URL extraction at the requested size with
non-string/empty entries filtered out. Errors thrown by the block are on the
left of the Except. -/
def grabPicBody (query accessKey : String) (options : GrabPicOptions)
    (fetch : FetchOutcome) : Except Thrown GrabPictureResult :=
  match validateQuery query with
  | .error e => .error (.gpe e)
  | .ok _ =>
  match validateAccessKey accessKey with
  | .error e => .error (.gpe e)
  | .ok _ =>
  match validateAndNormalizeOptions options with
  | .error e => .error (.gpe e)
  | .ok validatedOptions =>
  match fetch with
  | .throws e => .error (.exn e)
  | .ok response =>
    if ¬ response.okStatus then
      if response.status = 401 then
        .error (.gpe ⟨"Invalid Unsplash access key. Please check your API key.",
          .INVALID_ACCESS_KEY, 401⟩)
      else if response.status = 403 then
        .error (.gpe ⟨"Rate limit exceeded or access denied. Please try again later.",
          .RATE_LIMIT_EXCEEDED, 403⟩)
      else if response.status = 404 then
        .error (.gpe ⟨"Unsplash API endpoint not found. Please check the library version.",
          .API_ERROR, 404⟩)
      else
        .error (.gpe ⟨"Unsplash API error: " ++ toString response.status ++ " " ++ response.statusText,
          .API_ERROR, response.status⟩)
    else
      match response.body with
      | .parseFailure => .error (.exn (.syntaxError "Unexpected end of JSON input"))
      | .malformed => .error (.gpe ⟨"Invalid response format from Unsplash API", .API_ERROR, 500⟩)
      | .results rs =>
        if rs.length = 0 then
          .error (.gpe ⟨"No images found for query: \"" ++ query ++ "\". Try a different search term.",
            .NO_RESULTS_FOUND, 404⟩)
        else
          if ((rs.map (fun photo => photo.urls.get validatedOptions.size)).filter
              (fun url => url ≠ "")).length = 0 then
            .error (.gpe ⟨"No valid image URLs found in API response", .API_ERROR, 500⟩)
          else
            .ok ⟨(rs.map (fun photo => photo.urls.get validatedOptions.size)).filter
              (fun url => url ≠ "")⟩

/-- catch-block of the enhanced grabPic: GrabPicErrors are rethrown unchanged;
a TypeError whose message mentions fetch becomes NETWORK_ERROR (503); a
SyntaxError becomes API_ERROR (500); anything else becomes UNKNOWN_ERROR (500). -/
def catchToGrabPicError : Thrown → GrabPicError
  | .gpe e => e
  | .exn (.typeError msg) =>
    if jsIncludes msg "fetch" then
      ⟨"Network error: Unable to connect to Unsplash API. Please check your internet connection.",
        .NETWORK_ERROR, 503⟩
    else
      ⟨"An unexpected error occurred while fetching images", .UNKNOWN_ERROR, 500⟩
  | .exn (.syntaxError _) =>
    ⟨"Invalid response from Unsplash API (JSON parsing failed)", .API_ERROR, 500⟩
  | .exn (.otherError _ _) =>
    ⟨"An unexpected error occurred while fetching images", .UNKNOWN_ERROR, 500⟩
  | .exn .nonError =>
    ⟨"An unexpected error occurred while fetching images", .UNKNOWN_ERROR, 500⟩

/-- grabPic of the enhanced library: the try-block with the catch-block
applied, so every failure surfaces as a GrabPicError. -/
def grabPic (query accessKey : String) (options : GrabPicOptions)
    (fetch : FetchOutcome) : Except GrabPicError GrabPictureResult :=
  (grabPicBody query accessKey options fetch).mapError catchToGrabPicError

end Enhanced

namespace Envelope

/-- Uniform response envelope of the enhanced index.ts grabPic. -/
structure GrabPicResponse where
  success : Bool
  data : Option (List String)
  error : Option String
  statusCode : Nat
  message : Option String
deriving DecidableEq, Repr

/-- URL extraction with fallback of the envelope grabPic: the URL at the
requested size, else the regular URL, else the full URL, else the record is
dropped (null filtered out). -/
def extractUrl (photo : UnsplashPhoto) (size : String) : Option String :=
  if photo.urls.get size = "" then
    if photo.urls.regular ≠ "" then some photo.urls.regular
    else if photo.urls.full ≠ "" then some photo.urls.full
    else none
  else some (photo.urls.get size)

/-- grabPic of src/index.ts: envelope style. The two environment variables
that may hold the access key are passed explicitly as env1/env2 ("" = unset). -/
def grabPic (query : String) (env1 env2 : String) (options : GrabPicOptions)
    (fetch : FetchOutcome) : GrabPicResponse :=
  if query = "" ∨ (jsTrim query).length = 0 then
    ⟨false, none, some "Query parameter is required and must be a non-empty string", 400,
      some "Invalid query parameter"⟩
  else if (if env1 ≠ "" then env1 else env2) = "" then
    ⟨false, none,
      some "Unsplash access key not configured. Please set UNSPLASH_ACCESS_KEY or NEXT_PUBLIC_UNSPLASH_ACCESS_KEY environment variable",
      500, some "Configuration error"⟩
  else
    match options.count.getD (.num (.rat 5)) with
    | .other =>
      ⟨false, none, some "Count must be a number between 1 and 30", 400,
        some "Invalid count parameter"⟩
    | .num n =>
      if n.ltc 1 ∨ n.gtc 30 then
        ⟨false, none, some "Count must be a number between 1 and 30", 400,
          some "Invalid count parameter"⟩
      else if options.orientation.getD "" ≠ "" ∧ options.orientation.getD "" ∉ validOrientations then
        ⟨false, none, some "Orientation must be one of: landscape, portrait, squarish", 400,
          some "Invalid orientation parameter"⟩
      else if options.size.getD "regular" ≠ "" ∧ options.size.getD "regular" ∉ validSizes then
        ⟨false, none, some "Size must be one of: raw, full, regular, small, thumb", 400,
          some "Invalid size parameter"⟩
      else
        match fetch with
        | .throws e =>
          if (match e with | .typeError m => jsIncludes m "fetch" | _ => false) then
            ⟨false, none,
              some "Network error: Unable to connect to Unsplash API. Please check your internet connection",
              503, some "Network connection failed"⟩
          else
            ⟨false, none,
              some (if e.isJsError then e.message
                else "An unexpected error occurred while fetching images"),
              500, some "Internal error"⟩
        | .ok response =>
          if ¬ response.okStatus then
            if response.status = 401 then
              ⟨false, none, some "Invalid Unsplash access key. Please check your API credentials",
                401, some "Authentication failed"⟩
            else if response.status = 403 then
              ⟨false, none, some "Rate limit exceeded or access denied. Please try again later",
                429, some "Rate limit exceeded"⟩
            else if response.status = 404 then
              ⟨false, none, some "Unsplash API endpoint not found", 404,
                some "API endpoint not found"⟩
            else
              ⟨false, none,
                some ("Unsplash API error: " ++ toString response.status ++ " " ++ response.statusText),
                response.status, some "API request failed"⟩
          else
            match response.body with
            | .parseFailure =>
              ⟨false, none, some "Failed to parse API response", 500,
                some "Invalid API response format"⟩
            | .malformed =>
              ⟨false, none, some "Invalid response structure from Unsplash API", 500,
                some "Malformed API response"⟩
            | .results rs =>
              if rs.length = 0 then
                ⟨false, none,
                  some ("No images found for query: \"" ++ query ++ "\". Try a different search term"),
                  404, some "No results found"⟩
              else
                if (rs.filterMap (fun photo => extractUrl photo (options.size.getD "regular"))).length = 0 then
                  ⟨false, none,
                    some ("No valid image URLs found for size: " ++ options.size.getD "regular"),
                    500, some "No valid URLs extracted"⟩
                else
                  ⟨true,
                    some (rs.filterMap (fun photo => extractUrl photo (options.size.getD "regular"))),
                    none, 200,
                    some ("Successfully fetched " ++
                      toString (rs.filterMap (fun photo =>
                        extractUrl photo (options.size.getD "regular"))).length ++ " image(s)")⟩

/-- Conditions under which the envelope grabPic reaches its fetch call. -/
def validationPasses (query env1 env2 : String) (options : GrabPicOptions) : Prop :=
  ¬(query = "" ∨ (jsTrim query).length = 0) ∧
  (if env1 ≠ "" then env1 else env2) ≠ "" ∧
  (∃ n : JsNum, options.count.getD (.num (.rat 5)) = .num n ∧
    n.ltc 1 = false ∧ n.gtc 30 = false) ∧
  ¬(options.orientation.getD "" ≠ "" ∧ options.orientation.getD "" ∉ validOrientations) ∧
  ¬(options.size.getD "regular" ≠ "" ∧ options.size.getD "regular" ∉ validSizes)

end Envelope

/-- Invariant of the envelope shape: success implies non-empty data, status
200 and no error; failure implies an error message and no data. -/
def envelopeInvariant (r : Envelope.GrabPicResponse) : Prop :=
  (r.success = true →
    (∃ d, r.data = some d ∧ d ≠ []) ∧ r.statusCode = 200 ∧ r.error = none) ∧
  (r.success = false → r.error ≠ none ∧ r.data = none)

namespace Legacy

/-- A value thrown by the legacy grabPic: either a caught exception rethrown
as-is (raw), or an Error the function itself constructed. -/
inductive Thrown where
  | exn (e : Exn)
  | newError (msg : String)
deriving DecidableEq, Repr

/-- Detects a raw (unwrapped) exception propagated to the caller. -/
def Thrown.isRawExn : Thrown → Bool
  | .exn _ => true
  | .newError _ => false

/-- Options of the legacy grabPic (count is declared number in its signature). -/
structure Options where
  count : Option JsNum
  orientation : Option String
  size : Option String
deriving DecidableEq, Repr

/-- try-block of the legacy grabPic from part_000: minimal validation, fetch,
status interpretation, and extraction of one URL per record with no filtering.
A missing results array and an empty results array raise the same Error. -/
def grabPicBody (query accessKey : String) (options : Options)
    (fetch : FetchOutcome) : Except Thrown GrabPictureResult :=
  if query = "" ∨ accessKey = "" then
    .error (.newError "Query and access key are required")
  else if (options.count.getD (.rat 5)).ltc 1 ∨ (options.count.getD (.rat 5)).gtc 30 then
    .error (.newError "Count must be between 1 and 30")
  else
    match fetch with
    | .throws e => .error (.exn e)
    | .ok response =>
      if ¬ response.okStatus then
        if response.status = 401 then
          .error (.newError "Invalid Unsplash access key")
        else if response.status = 403 then
          .error (.newError "Rate limit exceeded or access denied")
        else
          .error (.newError ("Unsplash API error: " ++ toString response.status ++ " " ++
            response.statusText))
      else
        match response.body with
        | .parseFailure => .error (.exn (.syntaxError "Unexpected end of JSON input"))
        | .malformed => .error (.newError ("No images found for query: \"" ++ query ++ "\""))
        | .results rs =>
          if rs.length = 0 then
            .error (.newError ("No images found for query: \"" ++ query ++ "\""))
          else
            .ok ⟨rs.map (fun photo => photo.urls.get (options.size.getD "regular"))⟩

/-- catch-block of the legacy grabPic: (error instanceof Error) rethrows the
caught value unchanged — including raw transport exceptions — and only a
non-Error value is replaced by a fresh Error. -/
def rethrowCaught : Thrown → Thrown
  | .exn .nonError => .newError "Failed to fetch images from Unsplash"
  | t => t

/-- grabPic of part_000 (same shape as grabPicLegacy in index.ts). -/
def grabPic (query accessKey : String) (options : Options)
    (fetch : FetchOutcome) : Except Thrown GrabPictureResult :=
  (grabPicBody query accessKey options fetch).mapError rethrowCaught

end Legacy

/-- Heap model for the defensive-copy property: a JavaScript array value is a
reference (an index) into a store of string lists. -/
abbrev Store := List (List String)

/-- Dereference an array reference (an invalid reference reads []). -/
def Store.read (s : Store) (r : Nat) : List String := s.getD r []

/-- In-place mutation of the array behind a reference. -/
def Store.write (s : Store) (r : Nat) (v : List String) : Store := s.set r v

/-- Allocation of a fresh array: its reference is the current store size. -/
def Store.alloc (s : Store) (v : List String) : Nat × Store := (s.length, s ++ [v])

/-- GrabPictureResult at the heap level: this.urls is a reference to an array
in the store (the constructor stores the reference it is given). -/
structure GrabPictureResultObj where
  urlsRef : Nat
deriving DecidableEq, Repr

/-- all() at the heap level: [...this.urls] allocates a fresh array with the
same contents and returns the new reference. -/
def GrabPictureResultObj.allObj (o : GrabPictureResultObj) (s : Store) : Nat × Store :=
  s.alloc (s.read o.urlsRef)

/-- one() at the heap level: reads the backing array out of the store. -/
def GrabPictureResultObj.oneObj (o : GrabPictureResultObj) (s : Store) : String :=
  (s.read o.urlsRef).getD 0 ""


/-- Claim C2 counterexample: an access key of 10 letters followed by 15 spaces
has trimmed length 10 (non-empty, shorter than 20), so the claim demands an
InvalidAccessKey failure, yet validateAccessKey accepts it: the length check in
the source is on the untrimmed string, whose length is 25. -/
theorem claim_C2_counterexample :
    validateAccessKey "aaaaaaaaaa               " = .ok () ∧
    (jsTrim "aaaaaaaaaa               ").length < 20 ∧
    (jsTrim "aaaaaaaaaa               ").length ≠ 0 := by decide

/-- Claim C2 amended: keys whose trimmed form is empty fail with
MissingAccessKey; keys with non-empty trimmed form and UNTRIMMED length below
20 fail with InvalidAccessKey; keys with non-empty trimmed form and untrimmed
length at least 20 are accepted. -/
theorem claim_C2_amended (k : String) :
    ((jsTrim k).length = 0 →
      ∃ m, validateAccessKey k = .error ⟨m, .MISSING_ACCESS_KEY, 400⟩) ∧
    ((jsTrim k).length ≠ 0 → k.length < 20 →
      validateAccessKey k = .error ⟨"Unsplash access key appears to be invalid (too short)",
        .INVALID_ACCESS_KEY, 400⟩) ∧
    ((jsTrim k).length ≠ 0 → 20 ≤ k.length → validateAccessKey k = .ok ()) := by
  unfold validateAccessKey
  by_cases h0 : k = ""
  · subst h0
    exact ⟨fun _ => ⟨"Unsplash access key is required and must be a string", by simp⟩,
      fun h _ => absurd (by decide) h, fun h _ => absurd (by decide) h⟩
  · refine ⟨fun h1 => ?_, fun h1 h2 => ?_, fun h1 h2 => ?_⟩
    · rw [if_neg h0, if_pos h1]
      exact ⟨_, rfl⟩
    · rw [if_neg h0, if_neg h1, if_pos h2]
    · rw [if_neg h0, if_neg h1, if_neg (by omega)]

/-- Claim C2 amended witness: a 24-character key with non-blank trimmed form is
accepted by validateAccessKey. -/
theorem claim_C2_amended_witness :
    validateAccessKey "aaaaaaaaaaaaaaaaaaaaaaaa" = .ok () :=
  (claim_C2_amended "aaaaaaaaaaaaaaaaaaaaaaaa").2.2 (by decide) (by decide)

/-- Claim C4 counterexample: a query of one letter followed by 200 spaces has
trimmed length 1 (non-empty, at most 200), so the claim says it is accepted,
yet validateQuery rejects it with MISSING_QUERY: the length check in the source
is on the untrimmed string, whose length is 201. -/
theorem claim_C4_counterexample :
    validateQuery ("a" ++ String.mk (List.replicate 200 ' ')) =
      .error ⟨"Query parameter is too long (maximum 200 characters)", .MISSING_QUERY, 400⟩ ∧
    (jsTrim ("a" ++ String.mk (List.replicate 200 ' '))).length ≤ 200 ∧
    (jsTrim ("a" ++ String.mk (List.replicate 200 ' '))).length ≠ 0 := by decide

/-- Claim C4 amended: queries whose trimmed form is empty fail with
MissingQuery; queries with non-empty trimmed form and UNTRIMMED length above
200 fail with MissingQuery; queries with non-empty trimmed form and untrimmed
length at most 200 are accepted. -/
theorem claim_C4_amended (q : String) :
    ((jsTrim q).length = 0 →
      ∃ m, validateQuery q = .error ⟨m, .MISSING_QUERY, 400⟩) ∧
    ((jsTrim q).length ≠ 0 → 200 < q.length →
      validateQuery q = .error ⟨"Query parameter is too long (maximum 200 characters)",
        .MISSING_QUERY, 400⟩) ∧
    ((jsTrim q).length ≠ 0 → q.length ≤ 200 → validateQuery q = .ok ()) := by
  unfold validateQuery
  by_cases h0 : q = ""
  · subst h0
    exact ⟨fun _ => ⟨"Query parameter is required and must be a non-empty string", by simp⟩,
      fun h _ => absurd (by decide) h, fun h _ => absurd (by decide) h⟩
  · refine ⟨fun h1 => ?_, fun h1 h2 => ?_, fun h1 h2 => ?_⟩
    · rw [if_neg h0, if_pos h1]
      exact ⟨_, rfl⟩
    · rw [if_neg h0, if_neg h1, if_pos (by omega)]
    · rw [if_neg h0, if_neg h1, if_neg (by omega)]

/-- Claim C4 amended witness: the query "mountains" is accepted. -/
theorem claim_C4_amended_witness : validateQuery "mountains" = .ok () :=
  (claim_C4_amended "mountains").2.2 (by decide) (by decide)

/-- Claim C3: a count option outside the integer range [1,30] (a non-number,
NaN, an infinity, a non-integral rational, or an out-of-range integer) makes
validateAndNormalizeOptions fail with INVALID_COUNT, regardless of the other
options; an integer count in [1,30] combined with a valid (or absent)
orientation and a valid (or defaulted) size validates successfully, and the
normalized record carries exactly that count. -/
theorem claim_C3 (opts : GrabPicOptions) :
    (countInvalid (opts.count.getD (.num (.rat 5))) →
      ∃ m, validateAndNormalizeOptions opts = .error ⟨m, .INVALID_COUNT, 400⟩) ∧
    (∀ q : ℚ, opts.count.getD (.num (.rat 5)) = .num (.rat q) → q.den = 1 → 1 ≤ q → q ≤ 30 →
      (opts.orientation.getD "" = "" ∨ opts.orientation.getD "" ∈ validOrientations) →
      opts.size.getD "regular" ∈ validSizes →
      ∃ o s, validateAndNormalizeOptions opts = .ok ⟨q, o, s⟩) := by
  constructor
  · intro hbad
    cases hc : opts.count.getD (.num (.rat 5)) with
    | other => exact ⟨"Count parameter must be an integer", by simp [validateAndNormalizeOptions, hc]⟩
    | num n =>
      cases n with
      | nan => exact ⟨"Count parameter must be an integer", by simp [validateAndNormalizeOptions, hc]⟩
      | posInf => exact ⟨"Count parameter must be an integer", by simp [validateAndNormalizeOptions, hc]⟩
      | negInf => exact ⟨"Count parameter must be an integer", by simp [validateAndNormalizeOptions, hc]⟩
      | rat qq =>
        rw [hc] at hbad
        simp only [countInvalid] at hbad
        by_cases hden : qq.den ≠ 1
        · exact ⟨"Count parameter must be an integer",
            by simp only [validateAndNormalizeOptions, hc]; rw [if_pos hden]⟩
        · exact ⟨"Count parameter must be between 1 and 30 (Unsplash API limitation)",
            by simp only [validateAndNormalizeOptions, hc]; rw [if_neg hden, if_pos (by tauto)]⟩
  · intro q hq hden h1 h30 horient hsize
    refine ⟨if opts.orientation.getD "" = "" then "landscape" else opts.orientation.getD "",
      opts.size.getD "regular", ?_⟩
    have hor : ¬(opts.orientation.getD "" ≠ "" ∧ opts.orientation.getD "" ∉ validOrientations) := by
      rcases horient with h | h
      · exact fun hc => hc.1 h
      · exact fun hc => hc.2 h
    simp only [validateAndNormalizeOptions, hq]
    rw [if_neg (by omega), if_neg (by rintro (h | h) <;> linarith), if_neg hor,
      if_neg (by simpa using hsize)]

/-- Claim C3 witness: count 0 is rejected with INVALID_COUNT, and count 7 with
default orientation and size "thumb" validates with normalized count 7. -/
theorem claim_C3_witness :
    (∃ m, validateAndNormalizeOptions ⟨some (.num (.rat 0)), none, none⟩ =
      .error ⟨m, .INVALID_COUNT, 400⟩) ∧
    (∃ o s, validateAndNormalizeOptions ⟨some (.num (.rat 7)), none, some "thumb"⟩ =
      .ok ⟨7, o, s⟩) :=
  ⟨(claim_C3 ⟨some (.num (.rat 0)), none, none⟩).1 (by simp [countInvalid]),
   (claim_C3 ⟨some (.num (.rat 7)), none, some "thumb"⟩).2 7 rfl (by decide) (by norm_num)
     (by norm_num) (by decide) (by decide)⟩

lemma Store.read_append_lt (s : Store) (t : List (List String)) (r : Nat)
    (h : r < s.length) : (s ++ t).read r = s.read r := by
  unfold Store.read
  rw [List.getD_eq_getElem?_getD, List.getD_eq_getElem?_getD, List.getElem?_append_left h]

lemma Store.read_append_self (s : Store) (v : List String) :
    (s ++ [v]).read s.length = v := by
  unfold Store.read
  rw [List.getD_eq_getElem?_getD, List.getElem?_append_right (Nat.le_refl _)]
  simp

lemma Store.read_write_ne (s : Store) (r1 r2 : Nat) (v : List String) (h : r1 ≠ r2) :
    (s.write r1 v).read r2 = s.read r2 := by
  unfold Store.read Store.write
  rw [List.getD_eq_getElem?_getD, List.getD_eq_getElem?_getD, List.getElem?_set_ne h]

/-- Claim C8: with a valid backing reference, two successive all() calls
allocate two distinct array instances, both holding the internal URL list's
contents, and mutating the first returned array leaves the internal list —
and hence subsequent accessor reads — unchanged. -/
theorem claim_C8 (s : Store) (o : GrabPictureResultObj) (v : List String)
    (h : o.urlsRef < s.length) :
    (o.allObj s).1 ≠ (o.allObj (o.allObj s).2).1 ∧
    ((o.allObj s).2).read (o.allObj s).1 = s.read o.urlsRef ∧
    ((o.allObj (o.allObj s).2).2).read (o.allObj (o.allObj s).2).1 = s.read o.urlsRef ∧
    (((o.allObj (o.allObj s).2).2).write (o.allObj s).1 v).read o.urlsRef = s.read o.urlsRef ∧
    o.oneObj ((((o.allObj (o.allObj s).2).2).write (o.allObj s).1 v)) = o.oneObj s := by
  have hca : (s ++ [s.read o.urlsRef]).read o.urlsRef = s.read o.urlsRef :=
    Store.read_append_lt s _ o.urlsRef h
  have hwrite :
      (((s ++ [s.read o.urlsRef]) ++ [s.read o.urlsRef]).write s.length v).read o.urlsRef =
        s.read o.urlsRef := by
    rw [Store.read_write_ne _ _ _ _ (Nat.ne_of_gt h)]
    rw [Store.read_append_lt _ _ _ (by simp; omega), hca]
  refine ⟨?_, ?_, ?_, ?_, ?_⟩
  · simp only [GrabPictureResultObj.allObj, Store.alloc]
    simp only [List.length_append, List.length_cons, List.length_nil]
    omega
  · simp only [GrabPictureResultObj.allObj, Store.alloc]
    exact Store.read_append_self s _
  · simp only [GrabPictureResultObj.allObj, Store.alloc, hca]
    have := Store.read_append_self (s ++ [s.read o.urlsRef]) (s.read o.urlsRef)
    simpa using this
  · simp only [GrabPictureResultObj.allObj, Store.alloc, hca]
    exact hwrite
  · simp only [GrabPictureResultObj.allObj, Store.alloc, GrabPictureResultObj.oneObj, hca]
    rw [hwrite]

/-- Claim C8 witness: concrete store with one two-element URL array at
reference 0, mutated copy ["hacked"]. -/
theorem claim_C8_witness :
    (⟨0⟩ : GrabPictureResultObj).urlsRef < ([["u1", "u2"]] : Store).length ∧
    (((⟨0⟩ : GrabPictureResultObj).allObj [["u1", "u2"]]).1 ≠
      ((⟨0⟩ : GrabPictureResultObj).allObj
        ((⟨0⟩ : GrabPictureResultObj).allObj [["u1", "u2"]]).2).1 ∧
    (((⟨0⟩ : GrabPictureResultObj).allObj [["u1", "u2"]]).2).read
        ((⟨0⟩ : GrabPictureResultObj).allObj [["u1", "u2"]]).1 =
      Store.read [["u1", "u2"]] 0 ∧
    (((⟨0⟩ : GrabPictureResultObj).allObj
        ((⟨0⟩ : GrabPictureResultObj).allObj [["u1", "u2"]]).2).2).read
        ((⟨0⟩ : GrabPictureResultObj).allObj
          ((⟨0⟩ : GrabPictureResultObj).allObj [["u1", "u2"]]).2).1 =
      Store.read [["u1", "u2"]] 0 ∧
    ((((⟨0⟩ : GrabPictureResultObj).allObj
        ((⟨0⟩ : GrabPictureResultObj).allObj [["u1", "u2"]]).2).2).write
        (((⟨0⟩ : GrabPictureResultObj).allObj [["u1", "u2"]]).1) ["hacked"]).read 0 =
      Store.read [["u1", "u2"]] 0 ∧
    (⟨0⟩ : GrabPictureResultObj).oneObj
        ((((⟨0⟩ : GrabPictureResultObj).allObj
          ((⟨0⟩ : GrabPictureResultObj).allObj [["u1", "u2"]]).2).2).write
          (((⟨0⟩ : GrabPictureResultObj).allObj [["u1", "u2"]]).1) ["hacked"]) =
      (⟨0⟩ : GrabPictureResultObj).oneObj [["u1", "u2"]]) :=
  ⟨by decide, claim_C8 [["u1", "u2"]] ⟨0⟩ ["hacked"] (by decide)⟩

/-- Claim C9: random() on an empty result set returns "", and on a non-empty
set every draw rnd ∈ [0,1) selects a member of the set. -/
theorem claim_C9 (res : GrabPictureResult) (rnd : ℚ) (h0 : 0 ≤ rnd) (h1 : rnd < 1) :
    (res.urls = [] → res.random rnd = "") ∧
    (res.urls ≠ [] → res.random rnd ∈ res.urls) := by
  constructor
  · intro h
    simp [GrabPictureResult.random, h]
  · intro h
    have hlen : 0 < res.urls.length := List.length_pos.mpr h
    unfold GrabPictureResult.random
    rw [if_neg (by omega)]
    have hfl0 : 0 ≤ ⌊rnd * (res.urls.length : ℚ)⌋ :=
      Int.floor_nonneg.mpr (mul_nonneg h0 (by positivity))
    have hflt : ⌊rnd * (res.urls.length : ℚ)⌋ < (res.urls.length : ℤ) := by
      apply Int.floor_lt.mpr
      push_cast
      calc rnd * (res.urls.length : ℚ) < 1 * (res.urls.length : ℚ) := by
            apply mul_lt_mul_of_pos_right h1
            exact_mod_cast hlen
        _ = (res.urls.length : ℚ) := one_mul _
    have hidx : (⌊rnd * (res.urls.length : ℚ)⌋).toNat < res.urls.length := by
      rw [Int.toNat_lt hfl0]
      exact_mod_cast hflt
    rw [List.getD_eq_getElem?_getD, List.getElem?_eq_getElem hidx]
    simp only [Option.getD_some]
    exact List.getElem_mem hidx

/-- Claim C9 witness: rnd = 1/2 on a two-element set selects a member. -/
theorem claim_C9_witness :
    (0 : ℚ) ≤ 1/2 ∧ (1/2 : ℚ) < 1 ∧
    (GrabPictureResult.mk ["u1", "u2"]).random (1/2) ∈ ["u1", "u2"] :=
  ⟨by norm_num, by norm_num,
    (claim_C9 ⟨["u1", "u2"]⟩ (1/2) (by norm_num) (by norm_num)).2 (by decide)⟩

/-- Claim C1 counterexample: a 2xx response containing exactly two photo
records is not enough for the stated conclusion — when both records lack a
"small" URL the enhanced grabPic filters both out and fails with API_ERROR
instead of returning a ResultSet. -/
theorem claim_C1_counterexample :
    Enhanced.grabPic "mountains" (String.mk (List.replicate 64 'A'))
        ⟨some (.num (.rat 2)), none, some "small"⟩
        (.ok ⟨200, "OK", .results
          [⟨"p1", ⟨"raw1", "full1", "reg1", "", "thumb1"⟩⟩,
           ⟨"p2", ⟨"raw2", "full2", "reg2", "", "thumb2"⟩⟩]⟩) =
      .error ⟨"No valid image URLs found in API response", .API_ERROR, 500⟩ := by decide

/-- Claim C1 amended: for every 2xx response whose body holds exactly two
photo records each carrying a non-empty "small" URL, the call with query
"mountains", a valid access key, count 2 and size "small" returns a ResultSet
whose one() and two() are the two records' "small" URLs in response order,
whose three(), four() and five() are "", and whose all() has length 2. -/
theorem claim_C1_amended (k : String) (p1 p2 : UnsplashPhoto) (status : Nat) (sText : String)
    (hk : validateAccessKey k = .ok ()) (h2xx : 200 ≤ status ∧ status ≤ 299)
    (hs1 : p1.urls.small ≠ "") (hs2 : p2.urls.small ≠ "") :
    ∃ res, Enhanced.grabPic "mountains" k ⟨some (.num (.rat 2)), none, some "small"⟩
        (.ok ⟨status, sText, .results [p1, p2]⟩) = .ok res ∧
      res.one = p1.urls.small ∧ res.two = p2.urls.small ∧
      res.three = "" ∧ res.four = "" ∧ res.five = "" ∧ res.all.length = 2 := by
  refine ⟨⟨[p1.urls.small, p2.urls.small]⟩, ?_, rfl, rfl, rfl, rfl, rfl, rfl⟩
  simp only [Enhanced.grabPic, Enhanced.grabPicBody, hk,
    show validateQuery "mountains" = .ok () from by decide,
    show validateAndNormalizeOptions ⟨some (.num (.rat 2)), none, some "small"⟩ =
      .ok ⟨2, "landscape", "small"⟩ from by decide,
    HttpResponse.okStatus, decide_eq_true_eq]
  rw [if_neg (not_not_intro h2xx)]
  simp [PhotoUrls.get, hs1, hs2, Except.mapError]

/-- Claim C1 amended witness: concrete two-record 200 response with non-empty
"small" URLs s1 and s2. -/
theorem claim_C1_amended_witness :
    ∃ res, Enhanced.grabPic "mountains" (String.mk (List.replicate 64 'A'))
        ⟨some (.num (.rat 2)), none, some "small"⟩
        (.ok ⟨200, "OK", .results
          [⟨"p1", ⟨"", "", "", "s1", ""⟩⟩, ⟨"p2", ⟨"", "", "", "s2", ""⟩⟩]⟩) = .ok res ∧
      res.one = "s1" ∧ res.two = "s2" ∧
      res.three = "" ∧ res.four = "" ∧ res.five = "" ∧ res.all.length = 2 :=
  claim_C1_amended (String.mk (List.replicate 64 'A'))
    ⟨"p1", ⟨"", "", "", "s1", ""⟩⟩ ⟨"p2", ⟨"", "", "", "s2", ""⟩⟩ 200 "OK"
    (by decide) (by decide) (by decide) (by decide)

lemma Envelope.grabPic_not_ok (query env1 env2 : String) (opts : GrabPicOptions)
    (status : Nat) (sText : String) (body : JsonBody)
    (h : Envelope.validationPasses query env1 env2 opts)
    (hst : ¬(200 ≤ status ∧ status ≤ 299)) :
    Envelope.grabPic query env1 env2 opts (.ok ⟨status, sText, body⟩) =
      (if status = 401 then
        ⟨false, none, some "Invalid Unsplash access key. Please check your API credentials",
          401, some "Authentication failed"⟩
      else if status = 403 then
        ⟨false, none, some "Rate limit exceeded or access denied. Please try again later",
          429, some "Rate limit exceeded"⟩
      else if status = 404 then
        ⟨false, none, some "Unsplash API endpoint not found", 404, some "API endpoint not found"⟩
      else
        ⟨false, none, some ("Unsplash API error: " ++ toString status ++ " " ++ sText),
          status, some "API request failed"⟩) := by
  obtain ⟨h1, h2, ⟨cn, hcn, hlt, hgt⟩, h4, h5⟩ := h
  simp only [Envelope.grabPic, hcn]
  rw [if_neg h1, if_neg h2, if_neg (by simp [hlt, hgt]), if_neg h4, if_neg h5]
  simp only [HttpResponse.okStatus, decide_eq_true_eq]
  rw [if_pos hst]

lemma Envelope.grabPic_empty_results (query env1 env2 : String) (opts : GrabPicOptions)
    (status : Nat) (sText : String)
    (h : Envelope.validationPasses query env1 env2 opts)
    (hst : 200 ≤ status ∧ status ≤ 299) :
    Envelope.grabPic query env1 env2 opts (.ok ⟨status, sText, .results []⟩) =
      ⟨false, none,
        some ("No images found for query: \"" ++ query ++ "\". Try a different search term"),
        404, some "No results found"⟩ := by
  obtain ⟨h1, h2, ⟨cn, hcn, hlt, hgt⟩, h4, h5⟩ := h
  simp only [Envelope.grabPic, hcn]
  rw [if_neg h1, if_neg h2, if_neg (by simp [hlt, hgt]), if_neg h4, if_neg h5]
  simp only [HttpResponse.okStatus, decide_eq_true_eq]
  rw [if_neg (not_not_intro hst)]
  simp

/-- Claim C5: once validation passes, an HTTP 401 makes the enhanced search
fail with INVALID_ACCESS_KEY carrying status 401, a 403 with
RATE_LIMIT_EXCEEDED carrying status 403, and a 404 with API_ERROR carrying
status 404; the envelope entry point likewise fails with statusCode 401,
429 (for the 403 response) and 404 respectively. -/
theorem claim_C5 (query accessKey : String) (opts : GrabPicOptions) (n : NormalizedOptions)
    (sText : String) (body : JsonBody) (env1 env2 : String)
    (hq : validateQuery query = .ok ()) (hk : validateAccessKey accessKey = .ok ())
    (hopts : validateAndNormalizeOptions opts = .ok n)
    (henv : Envelope.validationPasses query env1 env2 opts) :
    (Enhanced.grabPic query accessKey opts (.ok ⟨401, sText, body⟩) =
      .error ⟨"Invalid Unsplash access key. Please check your API key.",
        .INVALID_ACCESS_KEY, 401⟩) ∧
    (Enhanced.grabPic query accessKey opts (.ok ⟨403, sText, body⟩) =
      .error ⟨"Rate limit exceeded or access denied. Please try again later.",
        .RATE_LIMIT_EXCEEDED, 403⟩) ∧
    (Enhanced.grabPic query accessKey opts (.ok ⟨404, sText, body⟩) =
      .error ⟨"Unsplash API endpoint not found. Please check the library version.",
        .API_ERROR, 404⟩) ∧
    ((Envelope.grabPic query env1 env2 opts (.ok ⟨401, sText, body⟩)).success = false ∧
      (Envelope.grabPic query env1 env2 opts (.ok ⟨401, sText, body⟩)).statusCode = 401) ∧
    ((Envelope.grabPic query env1 env2 opts (.ok ⟨403, sText, body⟩)).success = false ∧
      (Envelope.grabPic query env1 env2 opts (.ok ⟨403, sText, body⟩)).statusCode = 429) ∧
    ((Envelope.grabPic query env1 env2 opts (.ok ⟨404, sText, body⟩)).success = false ∧
      (Envelope.grabPic query env1 env2 opts (.ok ⟨404, sText, body⟩)).statusCode = 404) := by
  refine ⟨?_, ?_, ?_, ?_, ?_, ?_⟩
  · simp [Enhanced.grabPic, Enhanced.grabPicBody, hq, hk, hopts, HttpResponse.okStatus,
      Except.mapError, Enhanced.catchToGrabPicError]
  · simp [Enhanced.grabPic, Enhanced.grabPicBody, hq, hk, hopts, HttpResponse.okStatus,
      Except.mapError, Enhanced.catchToGrabPicError]
  · simp [Enhanced.grabPic, Enhanced.grabPicBody, hq, hk, hopts, HttpResponse.okStatus,
      Except.mapError, Enhanced.catchToGrabPicError]
  · rw [Envelope.grabPic_not_ok query env1 env2 opts 401 sText body henv (by omega)]
    simp
  · rw [Envelope.grabPic_not_ok query env1 env2 opts 403 sText body henv (by omega)]
    simp
  · rw [Envelope.grabPic_not_ok query env1 env2 opts 404 sText body henv (by omega)]
    simp

/-- Claim C5 witness: concrete query, access key, default options and
environment key, with an empty-results JSON body. -/
theorem claim_C5_witness :
    (Enhanced.grabPic "cats" "ABCDEFGHIJKLMNOPQRSTUVWX" ⟨none, none, none⟩
        (.ok ⟨401, "Unauthorized", .results []⟩) =
      .error ⟨"Invalid Unsplash access key. Please check your API key.",
        .INVALID_ACCESS_KEY, 401⟩) ∧
    (Enhanced.grabPic "cats" "ABCDEFGHIJKLMNOPQRSTUVWX" ⟨none, none, none⟩
        (.ok ⟨403, "Unauthorized", .results []⟩) =
      .error ⟨"Rate limit exceeded or access denied. Please try again later.",
        .RATE_LIMIT_EXCEEDED, 403⟩) ∧
    (Enhanced.grabPic "cats" "ABCDEFGHIJKLMNOPQRSTUVWX" ⟨none, none, none⟩
        (.ok ⟨404, "Unauthorized", .results []⟩) =
      .error ⟨"Unsplash API endpoint not found. Please check the library version.",
        .API_ERROR, 404⟩) ∧
    ((Envelope.grabPic "cats" "ENVKEY" "" ⟨none, none, none⟩
        (.ok ⟨401, "Unauthorized", .results []⟩)).success = false ∧
      (Envelope.grabPic "cats" "ENVKEY" "" ⟨none, none, none⟩
        (.ok ⟨401, "Unauthorized", .results []⟩)).statusCode = 401) ∧
    ((Envelope.grabPic "cats" "ENVKEY" "" ⟨none, none, none⟩
        (.ok ⟨403, "Unauthorized", .results []⟩)).success = false ∧
      (Envelope.grabPic "cats" "ENVKEY" "" ⟨none, none, none⟩
        (.ok ⟨403, "Unauthorized", .results []⟩)).statusCode = 429) ∧
    ((Envelope.grabPic "cats" "ENVKEY" "" ⟨none, none, none⟩
        (.ok ⟨404, "Unauthorized", .results []⟩)).success = false ∧
      (Envelope.grabPic "cats" "ENVKEY" "" ⟨none, none, none⟩
        (.ok ⟨404, "Unauthorized", .results []⟩)).statusCode = 404) :=
  claim_C5 "cats" "ABCDEFGHIJKLMNOPQRSTUVWX" ⟨none, none, none⟩ ⟨5, "landscape", "regular"⟩
    "Unauthorized" (.results []) "ENVKEY" ""
    (by decide) (by decide) (by decide)
    ⟨by decide, by decide, ⟨.rat 5, by decide, by decide, by decide⟩, by decide, by decide⟩

/-- Claim C6: once validation passes, a 2xx response with an empty results
list makes the enhanced search fail with NO_RESULTS_FOUND (it does not return
a ResultSet), the error message contains the original query, and the envelope
entry point likewise fails with the query embedded in its error message. -/
theorem claim_C6 (query accessKey : String) (opts : GrabPicOptions) (n : NormalizedOptions)
    (status : Nat) (sText : String) (env1 env2 : String)
    (hq : validateQuery query = .ok ()) (hk : validateAccessKey accessKey = .ok ())
    (hopts : validateAndNormalizeOptions opts = .ok n)
    (henv : Envelope.validationPasses query env1 env2 opts)
    (hst : 200 ≤ status ∧ status ≤ 299) :
    (Enhanced.grabPic query accessKey opts (.ok ⟨status, sText, .results []⟩) =
      .error ⟨"No images found for query: \"" ++ query ++ "\". Try a different search term.",
        .NO_RESULTS_FOUND, 404⟩) ∧
    (∃ pre post, "No images found for query: \"" ++ query ++ "\". Try a different search term." =
      pre ++ query ++ post) ∧
    ((Envelope.grabPic query env1 env2 opts (.ok ⟨status, sText, .results []⟩)).success = false ∧
      (Envelope.grabPic query env1 env2 opts (.ok ⟨status, sText, .results []⟩)).error =
        some ("No images found for query: \"" ++ query ++ "\". Try a different search term")) := by
  refine ⟨?_, ⟨"No images found for query: \"", "\". Try a different search term.", rfl⟩, ?_⟩
  · simp only [Enhanced.grabPic, Enhanced.grabPicBody, hq, hk, hopts, HttpResponse.okStatus,
      decide_eq_true_eq]
    rw [if_neg (not_not_intro hst)]
    simp [Except.mapError, Enhanced.catchToGrabPicError]
  · rw [Envelope.grabPic_empty_results query env1 env2 opts status sText henv hst]
    exact ⟨rfl, rfl⟩

/-- Claim C6 witness: concrete 200 response with empty results for query
"cats". -/
theorem claim_C6_witness :
    (Enhanced.grabPic "cats" "ABCDEFGHIJKLMNOPQRSTUVWX" ⟨none, none, none⟩
        (.ok ⟨200, "OK", .results []⟩) =
      .error ⟨"No images found for query: \"cats\". Try a different search term.",
        .NO_RESULTS_FOUND, 404⟩) ∧
    (∃ pre post, "No images found for query: \"cats\". Try a different search term." =
      pre ++ "cats" ++ post) ∧
    ((Envelope.grabPic "cats" "ENVKEY" "" ⟨none, none, none⟩
        (.ok ⟨200, "OK", .results []⟩)).success = false ∧
      (Envelope.grabPic "cats" "ENVKEY" "" ⟨none, none, none⟩
        (.ok ⟨200, "OK", .results []⟩)).error =
        some "No images found for query: \"cats\". Try a different search term") :=
  claim_C6 "cats" "ABCDEFGHIJKLMNOPQRSTUVWX" ⟨none, none, none⟩ ⟨5, "landscape", "regular"⟩
    200 "OK" "ENVKEY" ""
    (by decide) (by decide) (by decide)
    ⟨by decide, by decide, ⟨.rat 5, by decide, by decide, by decide⟩, by decide, by decide⟩
    (by omega)

/-- Claim C7 counterexample: the legacy public entry point (part_000 grabPic)
rethrows the caught transport TypeError unchanged, so a raw/untyped transport
exception does propagate to its caller. -/
theorem claim_C7_counterexample :
    Legacy.grabPic "cats" "ABCDEFGHIJKLMNOPQRSTUVWX" ⟨none, none, none⟩
        (.throws (.typeError "fetch failed")) =
      .error (.exn (.typeError "fetch failed")) ∧
    Legacy.Thrown.isRawExn (.exn (.typeError "fetch failed")) = true := by decide

/-- Claim C7 amended: in the enhanced entry points every transport exception
is caught and wrapped — a TypeError whose message mentions fetch becomes
NETWORK_ERROR with status 503 in the throwing variant and a 503 network
envelope in the envelope variant, and any other transport exception still
surfaces as some typed GrabPicError rather than a raw exception; the legacy
entry point, by contrast, rethrows caught Errors unchanged. -/
theorem claim_C7_amended (query accessKey : String) (opts : GrabPicOptions)
    (n : NormalizedOptions) (env1 env2 : String) (m : String)
    (hq : validateQuery query = .ok ()) (hk : validateAccessKey accessKey = .ok ())
    (hopts : validateAndNormalizeOptions opts = .ok n)
    (henv : Envelope.validationPasses query env1 env2 opts)
    (hm : jsIncludes m "fetch" = true) :
    (Enhanced.grabPic query accessKey opts (.throws (.typeError m)) =
      .error ⟨"Network error: Unable to connect to Unsplash API. Please check your internet connection.",
        .NETWORK_ERROR, 503⟩) ∧
    (Envelope.grabPic query env1 env2 opts (.throws (.typeError m)) =
      ⟨false, none,
        some "Network error: Unable to connect to Unsplash API. Please check your internet connection",
        503, some "Network connection failed"⟩) ∧
    (∀ e : Exn, ∃ ge : GrabPicError,
      Enhanced.grabPic query accessKey opts (.throws e) = .error ge) := by
  obtain ⟨h1, h2, ⟨cn, hcn, hlt, hgt⟩, h4, h5⟩ := henv
  refine ⟨?_, ?_, ?_⟩
  · simp [Enhanced.grabPic, Enhanced.grabPicBody, hq, hk, hopts, Except.mapError,
      Enhanced.catchToGrabPicError, hm]
  · simp only [Envelope.grabPic, hcn]
    rw [if_neg h1, if_neg h2, if_neg (by simp [hlt, hgt]), if_neg h4, if_neg h5]
    simp [hm]
  · intro e
    refine ⟨Enhanced.catchToGrabPicError (.exn e), ?_⟩
    simp [Enhanced.grabPic, Enhanced.grabPicBody, hq, hk, hopts, Except.mapError]

/-- Claim C7 amended witness: concrete connectivity failure (TypeError with
message "fetch failed") and a concrete non-TypeError transport exception. -/
theorem claim_C7_amended_witness :
    (Enhanced.grabPic "cats" "ABCDEFGHIJKLMNOPQRSTUVWX" ⟨none, none, none⟩
        (.throws (.typeError "fetch failed")) =
      .error ⟨"Network error: Unable to connect to Unsplash API. Please check your internet connection.",
        .NETWORK_ERROR, 503⟩) ∧
    (Envelope.grabPic "cats" "ENVKEY" "" ⟨none, none, none⟩
        (.throws (.typeError "fetch failed")) =
      ⟨false, none,
        some "Network error: Unable to connect to Unsplash API. Please check your internet connection",
        503, some "Network connection failed"⟩) ∧
    (∃ ge : GrabPicError,
      Enhanced.grabPic "cats" "ABCDEFGHIJKLMNOPQRSTUVWX" ⟨none, none, none⟩
        (.throws (.otherError "AbortError" "The operation was aborted")) = .error ge) :=
  have h := claim_C7_amended "cats" "ABCDEFGHIJKLMNOPQRSTUVWX" ⟨none, none, none⟩
    ⟨5, "landscape", "regular"⟩ "ENVKEY" "" "fetch failed"
    (by decide) (by decide) (by decide)
    ⟨by decide, by decide, ⟨.rat 5, by decide, by decide, by decide⟩, by decide, by decide⟩
    (by decide)
  ⟨h.1, h.2.1, h.2.2 (.otherError "AbortError" "The operation was aborted")⟩

set_option maxHeartbeats 2000000 in
/-- Claim C10: every envelope returned by the envelope-style grabPic satisfies
the invariant — on success, data is present and non-empty, statusCode is 200
and error is absent; on failure, error is present and data is absent. -/
theorem claim_C10 (query env1 env2 : String) (opts : GrabPicOptions) (f : FetchOutcome) :
    envelopeInvariant (Envelope.grabPic query env1 env2 opts f) := by
  unfold Envelope.grabPic
  repeat' split
  all_goals
    refine ⟨fun hs => ?_, fun hs => ?_⟩ <;>
      first
        | exact Bool.noConfusion hs
        | exact ⟨Option.some_ne_none _, rfl⟩
        | (refine ⟨⟨_, rfl, fun hnil => ?_⟩, rfl, rfl⟩; simp_all)

/-- Claim C10 witness: a concrete successful call satisfies the success side
of the invariant, witnessing that both sides of the conjunction are usable. -/
theorem claim_C10_witness :
    (∃ d, (Envelope.grabPic "cats" "ENVKEY" "" ⟨none, none, none⟩
        (.ok ⟨200, "OK", .results [⟨"p1", ⟨"r", "f", "reg", "s", "t"⟩⟩]⟩)).data = some d ∧
      d ≠ []) ∧
    (Envelope.grabPic "cats" "ENVKEY" "" ⟨none, none, none⟩
        (.ok ⟨200, "OK", .results [⟨"p1", ⟨"r", "f", "reg", "s", "t"⟩⟩]⟩)).statusCode = 200 ∧
    (Envelope.grabPic "cats" "ENVKEY" "" ⟨none, none, none⟩
        (.ok ⟨200, "OK", .results [⟨"p1", ⟨"r", "f", "reg", "s", "t"⟩⟩]⟩)).error = none :=
  (claim_C10 "cats" "ENVKEY" "" ⟨none, none, none⟩
    (.ok ⟨200, "OK", .results [⟨"p1", ⟨"r", "f", "reg", "s", "t"⟩⟩]⟩)).1 (by decide)
